import Mathlib

/-!
A shallow embedding of the mailcow SCIM bridge (src/app/main.py): the
identity store, the mailbox client wrappers, and the provisioning
translator operations, together with theorems checking the specified
behaviour against this embedding.

Conventions of the embedding:
* Python/JSON values are modelled by the inductive `Json`; Python `None`
  is `Json.null`.  Dict keys may be ints or strings (`PyKey`), so that
  integer subscription of a string-keyed dict is derivable as a
  `KeyError` rather than postulated.
* Fallible Python code returns `Except PyErr _`; an uncaught Python
  exception surfaces as `Failure.py` (HTTP 500 at the boundary), while a
  raised `HTTPException` surfaces as `Failure.http` carrying the status
  code and the scimType of the SCIM error body.
* The remote mailcow API is an oracle: each outgoing request is given
  its wire response `WireResp` (HTTP status plus parsed JSON body, with
  `none` standing for a body that is not valid JSON).
* sqlite storage is a list of rows in insertion order plus the metrics
  counters; the `json.dumps`/`json.loads` round trip of the emails
  column is modelled as the identity on the structured value.
* Each translator operation returns an `Outcome`: its result, the final
  database state (a commit and its metric increment happen in one state
  transition, mirroring the single `dbconn.commit()`), and the list of
  mailbox-client invocations it performed.
-/

namespace Bridge

/-- Key of a Python dict entry: Python distinguishes the int key `0`
from the string key "0", and JSON objects only ever carry string keys. -/
inductive PyKey where
  | int (n : Int)
  | str (s : String)
deriving DecidableEq

/-- Python/JSON values as handled by the bridge.  Numeric values are
modelled as integers (no claim involves float arithmetic). -/
inductive Json where
  | null
  | bool (b : Bool)
  | num (n : Int)
  | str (s : String)
  | arr (elems : List Json)
  | obj (fields : List (PyKey × Json))

/-- First-match lookup in a dict, as Python dict access does (keys are
unique in any dict that Python actually builds). -/
def pyLookup (k : PyKey) : List (PyKey × Json) → Option Json
  | [] => none
  | (k2, v) :: rest => if k2 = k then some v else pyLookup k rest

mutual

/-- Python `==` on values: numbers and booleans compare across type
(`True == 1`), lists compare pointwise, dicts compare by key set and
values. -/
def pyEq : Json → Json → Bool
  | .null, .null => true
  | .bool a, .bool b => a == b
  | .bool a, .num n => n == (if a then (1 : Int) else 0)
  | .num n, .bool a => n == (if a then (1 : Int) else 0)
  | .num a, .num b => a == b
  | .str a, .str b => a == b
  | .arr as, .arr bs => pyEqList as bs
  | .obj as, .obj bs => as.length == bs.length && pyEqFields as bs
  | _, _ => false

/-- Pointwise Python equality of two lists. -/
def pyEqList : List Json → List Json → Bool
  | [], [] => true
  | a :: as, b :: bs => pyEq a b && pyEqList as bs
  | _, _ => false

/-- Every field of the first dict is present in the second with a
Python-equal value (with equal sizes this is Python dict equality). -/
def pyEqFields : List (PyKey × Json) → List (PyKey × Json) → Bool
  | [], _ => true
  | (k, v) :: rest, bs =>
      (match pyLookup k bs with
       | some w => pyEq v w
       | none => false) && pyEqFields rest bs

end

/-- Python truthiness of a value. -/
def pyTruthy : Json → Bool
  | .null => false
  | .bool b => b
  | .num n => n != 0
  | .str s => !(s == "")
  | .arr xs => !xs.isEmpty
  | .obj fs => !fs.isEmpty

/-- Python `is True` (identity with the boolean True). -/
def isTrue : Json → Bool
  | .bool b => b
  | _ => false

/-- Python `is None`. -/
def isNone : Json → Bool
  | .null => true
  | _ => false

/-- Exceptions the embedded code can raise. -/
inductive PyErr where
  | keyError
  | indexError
  | typeError
  | attributeError
  /-- JSON decoding failure of a response body (`ValueError`). -/
  | valueError
  /-- sqlite3 parameter-binding failure (wrong number of bindings). -/
  | programmingError
  /-- sqlite3 uniqueness violation. -/
  | integrityError
  /-- pydantic model validation failure. -/
  | validationError
deriving DecidableEq

/-- Python subscription `j[k]`: dict lookup (`KeyError` when absent),
list and string indexing with negative-index wraparound (`IndexError`
when out of range), `TypeError` otherwise. -/
def pyGetItem : Json → PyKey → Except PyErr Json
  | .obj fields, k =>
      match pyLookup k fields with
      | some v => .ok v
      | none => .error .keyError
  | .arr xs, .int n =>
      let i : Int := if n < 0 then n + xs.length else n
      if i < 0 then .error .indexError
      else
        match xs.get? i.toNat with
        | some v => .ok v
        | none => .error .indexError
  | .str s, .int n =>
      let i : Int := if n < 0 then n + s.length else n
      if i < 0 then .error .indexError
      else
        match s.data.get? i.toNat with
        | some c => .ok (.str (String.mk [c]))
        | none => .error .indexError
  | _, _ => .error .typeError

/-- The `.get` method call `m.get(k)` with a string key: only dict
objects have it (`AttributeError` otherwise); an absent key yields
Python `None`. -/
def pyDictGetStr (m : Json) (k : String) : Except PyErr Json :=
  match m with
  | .obj fields => .ok ((pyLookup (.str k) fields).getD .null)
  | _ => .error .attributeError

/-- Splitting a character list at every occurrence of the separator,
keeping empty pieces, exactly as Python `str.split("@")` does; the
result is never the empty list. -/
def splitChars (sep : Char) : List Char → List Char → List (List Char)
  | [], acc => [acc.reverse]
  | c :: cs, acc =>
      if c = sep then acc.reverse :: splitChars sep cs []
      else splitChars sep cs (c :: acc)

/-- The method call `v.split("@")`: defined on strings only
(`AttributeError` otherwise); a string split never yields an empty
list. -/
def pySplitAtSign : Json → Except PyErr (List String)
  | .str s => .ok ((splitChars '@' s.data []).map (fun l => String.mk l))
  | _ => .error .attributeError

/-- Body of the `for mail in mails` loop of `get_primary_mail`
(src/app/main.py lines 161-164): return the value of the first entry
whose primary field is identically `True`; once the loop is exhausted
the source evaluates `mail[0].get("value")`, where `mail` is the loop
variable still bound to the LAST entry, so the intended `mails[0]` is
actually an integer subscript of that entry. -/
def gpmLoop : Bridge.Json → List Bridge.Json → Except Bridge.PyErr Bridge.Json
  | mail, [] =>
      match pyDictGetStr mail "primary" with
      | .error e => .error e
      | .ok p =>
        if isTrue p then pyDictGetStr mail "value"
        else
          match pyGetItem mail (.int 0) with
          | .error e => .error e
          | .ok x => pyDictGetStr x "value"
  | mail, next :: rs =>
      match pyDictGetStr mail "primary" with
      | .error e => .error e
      | .ok p =>
        if isTrue p then pyDictGetStr mail "value"
        else gpmLoop next rs

/-- `get_primary_mail` (src/app/main.py lines 158-164): `None` for an
empty list, otherwise the loop above over the entries. -/
def get_primary_mail : List Bridge.Json → Except Bridge.PyErr Bridge.Json
  | [] => .ok .null
  | m :: ms => gpmLoop m ms

-- ## Data model: sqlite rows and the metrics counters

/-- One row of the `users` table (columns of the CREATE TABLE at
src/app/main.py lines 63-73).  `mailcowId` keeps the JSON value taken
from the remote response; `emails` keeps the structured value whose
`json.dumps` text the column stores. -/
structure UserRow where
  id : String
  mailcowId : Bridge.Json
  scimId : Option String
  active : Int
  userName : String
  displayName : Option String
  emails : List Bridge.Json

/-- The three rows of the `metrics` table. -/
structure Metrics where
  users_created : Int
  users_updated : Int
  users_deleted : Int
deriving DecidableEq

/-- Increment of the users_created counter (the UPDATE at lines
202-206). -/
def Metrics.bumpCreated (m : Metrics) : Metrics :=
  { m with users_created := m.users_created + 1 }

/-- Increment of the users_updated counter (lines 386-390). -/
def Metrics.bumpUpdated (m : Metrics) : Metrics :=
  { m with users_updated := m.users_updated + 1 }

/-- Increment of the users_deleted counter (lines 311-315 and
320-324). -/
def Metrics.bumpDeleted (m : Metrics) : Metrics :=
  { m with users_deleted := m.users_deleted + 1 }

/-- Componentwise order on the metrics counters. -/
def Metrics.le (a b : Metrics) : Prop :=
  a.users_created ≤ b.users_created ∧
  a.users_updated ≤ b.users_updated ∧
  a.users_deleted ≤ b.users_deleted

/-- The durable store: the users table in insertion order plus the
metrics counters. -/
structure DB where
  users : List UserRow
  metrics : Metrics

/-- The SCIM user request/response model (class SCIMUser, lines
115-122); the constant `schemas` field is omitted.  `emails` is a plain
Python list, so entries are arbitrary JSON values. -/
structure SCIMUser where
  id : Option String
  externalId : Option String
  active : Bool
  userName : String
  displayName : Option String
  emails : List Bridge.Json

/-- The SCIM list envelope (class SCIMListResponse, lines 131-136). -/
structure SCIMListResponse where
  totalResults : Int
  itemsPerPage : Int
  startIndex : Int
  Resources : List SCIMUser

-- ## SQL helpers

/-- The existence check `SELECT 1 FROM users WHERE scimId = ? OR
userName = ?` (line 171): a NULL externalId parameter makes the scimId
clause match no row (SQL `x = NULL` is never true). -/
def existsConflict (users : List UserRow) (extId : Option String) (uname : String) : Bool :=
  users.any (fun r =>
    (match extId with
     | some e => r.scimId == some e
     | none => false)
    || r.userName == uname)

/-- `INSERT INTO users` (lines 190-201): sqlite raises IntegrityError
if the primary key `id` or the UNIQUE column `userName` collides. -/
def insertUser (users : List UserRow) (r : UserRow) : Except Bridge.PyErr (List UserRow) :=
  if users.any (fun u => u.id == r.id || u.userName == r.userName)
  then .error .integrityError
  else .ok (users ++ [r])

/-- `UPDATE users SET ... WHERE id = ?` (lines 368-385): a NULL id
parameter matches no row; updating a row to a userName held by another
row violates the UNIQUE constraint. -/
def sqlUpdateUser (users : List UserRow) (whereId : Option String)
    (mId : Bridge.Json) (scim : Option String) (act : Int) (uname : String)
    (dname : Option String) (ems : List Bridge.Json) : Except Bridge.PyErr (List UserRow) :=
  let touched := users.any (fun r => some r.id == whereId)
  if touched && users.any (fun r => !(some r.id == whereId) && r.userName == uname)
  then .error .integrityError
  else .ok (users.map (fun r =>
    if some r.id == whereId then
      { r with mailcowId := mId, scimId := scim, active := act,
               userName := uname, displayName := dname, emails := ems }
    else r))

/-- sqlite parameter binding when the parameters argument is a bare
string instead of a tuple, as in `execute("... WHERE id = ?", (id))`
(lines 290, 310, 319): the string counts as a sequence of characters,
so a statement with one placeholder raises ProgrammingError unless the
string has length exactly 1, in which case its single character is
bound. -/
def bindStrParams (p : String) : Except Bridge.PyErr String :=
  if p.length = 1 then .ok p else .error .programmingError

/-- `SELECT ... FROM users LIMIT ? OFFSET ?` (lines 253-257): a
negative LIMIT means no limit in sqlite; the offset passed by the
caller is already clamped to be nonnegative. -/
def sqlSelectPage (users : List UserRow) (count offset : Int) : List UserRow :=
  let afterOffset := users.drop offset.toNat
  if count < 0 then afterOffset else afterOffset.take count.toNat

-- ## Failure taxonomy and operation outcomes

/-- The observable part of a raised HTTPException: status code and the
scimType field of the SCIM error body. -/
structure ScimError where
  status : Int
  scimType : String
deriving DecidableEq

/-- How a translator operation fails: a deliberate HTTPException, or an
uncaught Python exception (HTTP 500 at the framework boundary). -/
inductive Failure where
  | http (e : ScimError)
  | py (e : Bridge.PyErr)
deriving DecidableEq

/-- One invocation of a mailbox-client operation performed by a
translator operation. -/
inductive RemoteCall where
  | createMbox (localPart domain : String) (name : Option String)
  | editMbox (id : Bridge.Json) (active : Bool) (name : Option String)
  | renameMbox (id : Bridge.Json) (localPart domain : String)
  | deleteMbox (id : Bridge.Json)

/-- Result of a translator operation: its return value or failure, the
final database state, and the mailbox-client invocations made. -/
structure Outcome (α : Type) where
  result : Except Failure α
  db : DB
  calls : List RemoteCall

-- ## Mailbox client (src/app/main.py lines 403-478)

/-- The wire-level answer of the remote mailcow API to one request:
HTTP status and the parsed JSON body, `none` when the body is not valid
JSON. -/
structure WireResp where
  status : Int
  body : Option Bridge.Json

/-- `create_mailbox` (lines 413-435): the one wrapper, with
`get_mailbox`, that catches the JSON decode error, so it always returns
the pair of status and optional body. -/
def create_mailbox (local_part domain : String) (name : Option String)
    (w : WireResp) : Int × Option Bridge.Json :=
  (w.status, w.body)

/-- `get_mailbox` (lines 403-411): like `create_mailbox`, decode
failures are caught and yield an absent body. -/
def get_mailbox (id : String) (w : WireResp) : Int × Option Bridge.Json :=
  (w.status, w.body)

/-- `update_mailbox` (lines 437-453): no try/except around
`resp.json()`, so an unparseable body raises the decode error instead
of returning. -/
def update_mailbox (id : Bridge.Json) (active : Option Bool) (name : Option String)
    (tags : Option (List Bridge.Json)) (w : WireResp) :
    Except Bridge.PyErr (Int × Bridge.Json) :=
  match w.body with
  | some j => .ok (w.status, j)
  | none => .error .valueError

/-- `rename_mailbox` (lines 455-470): building the request evaluates
`id.split("@")`, an AttributeError for a non-string id; the response
body is parsed without a try/except. -/
def rename_mailbox (id : Bridge.Json) (local_part domain : String)
    (w : WireResp) : Except Bridge.PyErr (Int × Bridge.Json) :=
  match pySplitAtSign id with
  | .error e => .error e
  | .ok _ =>
      match w.body with
      | some j => .ok (w.status, j)
      | none => .error .valueError

/-- `delete_mailbox` (lines 472-478): the response body is parsed
without a try/except. -/
def delete_mailbox (id : Bridge.Json) (w : WireResp) :
    Except Bridge.PyErr (Int × Bridge.Json) :=
  match w.body with
  | some j => .ok (w.status, j)
  | none => .error .valueError

-- ## The success guard on remote responses

/-- Evaluation of `code == 200 and resp and resp[0]["type"] ==
"success"` for an already-parsed body: short-circuits on a non-200
status or a falsy body, then subscripts, which can itself raise. -/
def checkSuccessJ (code : Int) (resp : Bridge.Json) : Except Bridge.PyErr Bool :=
  if code = 200 then
    if pyTruthy resp then
      match pyGetItem resp (.int 0) with
      | .error e => .error e
      | .ok x =>
          match pyGetItem x (.str "type") with
          | .error e => .error e
          | .ok t => .ok (pyEq t (.str "success"))
    else .ok false
  else .ok false

/-- The same guard when the body may be absent (`None` is falsy). -/
def checkSuccessOpt (code : Int) (resp : Option Bridge.Json) : Except Bridge.PyErr Bool :=
  match resp with
  | none => .ok false
  | some j => checkSuccessJ code j

/-- Extraction `resp[0]["msg"][1]` of the mailbox identifier from a
successful remote response (lines 195 and 367). -/
def extractMsg1 (resp : Bridge.Json) : Except Bridge.PyErr Bridge.Json :=
  match pyGetItem resp (.int 0) with
  | .error e => .error e
  | .ok x =>
      match pyGetItem x (.str "msg") with
      | .error e => .error e
      | .ok m => pyGetItem m (.int 1)

-- ## Provisioning translator operations

/-- `create_user` (src/app/main.py lines 166-216), with the fresh
`str(uuid.uuid4())` of line 189 passed in as `freshId` and the remote
answer to the mailbox create as `wire`.  Order of effects follows the
source: resolve the primary mail (itself fallible), 400 on a `None`
resolution, the conflict SELECT, the argument evaluation
`email.split("@")[0] / [1]`, the remote create, the combined success
guard, then the INSERT plus counter bump committed together. -/
def create_user (db : DB) (user : SCIMUser) (freshId : String)
    (wire : WireResp) : Outcome SCIMUser :=
  match get_primary_mail user.emails with
  | .error e => ⟨.error (.py e), db, []⟩
  | .ok email =>
    if isNone email then
      ⟨.error (.http ⟨400, "invalidSyntax"⟩), db, []⟩
    else if existsConflict db.users user.externalId user.userName then
      ⟨.error (.http ⟨409, "uniqueness"⟩), db, []⟩
    else
      match pySplitAtSign email with
      | .error e => ⟨.error (.py e), db, []⟩
      | .ok [] => ⟨.error (.py .indexError), db, []⟩
      | .ok (lp :: rest) =>
        match rest.head? with
        | none => ⟨.error (.py .indexError), db, []⟩
        | some dom =>
          let call := RemoteCall.createMbox lp dom user.displayName
          let (code, resp) := create_mailbox lp dom user.displayName wire
          match checkSuccessOpt code resp with
          | .error e => ⟨.error (.py e), db, [call]⟩
          | .ok false => ⟨.error (.http ⟨502, "serverError"⟩), db, [call]⟩
          | .ok true =>
            let user1 := { user with id := some freshId }
            match
              (match resp with
               | some j => extractMsg1 j
               | none => .error .typeError) with
            | .error e => ⟨.error (.py e), db, [call]⟩
            | .ok mid =>
              match insertUser db.users
                  ⟨freshId, mid, user.externalId,
                   (if user.active then 1 else 0), user.userName,
                   user.displayName, user.emails⟩ with
              | .error e => ⟨.error (.py e), db, [call]⟩
              | .ok users1 => ⟨.ok user1, ⟨users1, db.metrics.bumpCreated⟩, [call]⟩

/-- Final step of `update_user` (lines 368-392): the UPDATE keyed on
the BODY id `user.id` (not the path id), the counter bump, and the
commit; the unchanged body object is returned. -/
def update_user_commit (db : DB) (user : SCIMUser) (newMailcowId : Bridge.Json)
    (calls : List RemoteCall) : Outcome SCIMUser :=
  match sqlUpdateUser db.users user.id newMailcowId user.externalId
      (if user.active then 1 else 0) user.userName user.displayName user.emails with
  | .error e => ⟨.error (.py e), db, calls⟩
  | .ok users1 => ⟨.ok user, ⟨users1, db.metrics.bumpUpdated⟩, calls⟩

/-- `update_user` (lines 328-400): resolve the primary mail, 400 on
`None`, look up the row by the PATH id (404 when absent), remote edit
against the stored mailcowId with the success guard, then — only when
the resolved mail is not Python-equal to the stored mailcowId — the
rename leg with its own guard and adoption of `resp[0]["msg"][1]`, and
finally the commit step above. -/
def update_user (db : DB) (pathId : String) (user : SCIMUser)
    (wireEdit wireRename : WireResp) : Outcome SCIMUser :=
  match get_primary_mail user.emails with
  | .error e => ⟨.error (.py e), db, []⟩
  | .ok email =>
    if isNone email then
      ⟨.error (.http ⟨400, "invalidSyntax"⟩), db, []⟩
    else
      match db.users.find? (fun r => r.id == pathId) with
      | none => ⟨.error (.http ⟨404, "notFound"⟩), db, []⟩
      | some row =>
        let mid0 := row.mailcowId
        let callEdit := RemoteCall.editMbox mid0 user.active user.displayName
        match update_mailbox mid0 (some user.active) user.displayName none wireEdit with
        | .error e => ⟨.error (.py e), db, [callEdit]⟩
        | .ok (code, resp) =>
          match checkSuccessJ code resp with
          | .error e => ⟨.error (.py e), db, [callEdit]⟩
          | .ok false => ⟨.error (.http ⟨502, "serverError"⟩), db, [callEdit]⟩
          | .ok true =>
            if pyEq email mid0 then
              update_user_commit db user mid0 [callEdit]
            else
              match pySplitAtSign email with
              | .error e => ⟨.error (.py e), db, [callEdit]⟩
              | .ok [] => ⟨.error (.py .indexError), db, [callEdit]⟩
              | .ok (lp :: rest) =>
                match rest.head? with
                | none => ⟨.error (.py .indexError), db, [callEdit]⟩
                | some dom =>
                  let callRename := RemoteCall.renameMbox mid0 lp dom
                  match rename_mailbox mid0 lp dom wireRename with
                  | .error e => ⟨.error (.py e), db, [callEdit, callRename]⟩
                  | .ok (code2, resp2) =>
                    match checkSuccessJ code2 resp2 with
                    | .error e => ⟨.error (.py e), db, [callEdit, callRename]⟩
                    | .ok false =>
                        ⟨.error (.http ⟨502, "serverError"⟩), db, [callEdit, callRename]⟩
                    | .ok true =>
                      match extractMsg1 resp2 with
                      | .error e => ⟨.error (.py e), db, [callEdit, callRename]⟩
                      | .ok mid1 => update_user_commit db user mid1 [callEdit, callRename]

/-- `delete_user` (lines 280-326), with the two policy flags as
parameters.  Both the lookup SELECT and the DELETE pass the id as a
bare string, hence `bindStrParams`; when that succeeds the bound
parameter is the id itself. -/
def delete_user (allowDelete deleteRemote : Bool) (db : DB) (pathId : String)
    (wire : WireResp) : Outcome Unit :=
  if !allowDelete then ⟨.error (.http ⟨403, "mutability"⟩), db, []⟩
  else
    match bindStrParams pathId with
    | .error e => ⟨.error (.py e), db, []⟩
    | .ok bound =>
      match db.users.find? (fun r => r.id == bound) with
      | none => ⟨.error (.http ⟨404, "notFound"⟩), db, []⟩
      | some row =>
        if deleteRemote then
          let call := RemoteCall.deleteMbox row.mailcowId
          match delete_mailbox row.mailcowId wire with
          | .error e => ⟨.error (.py e), db, [call]⟩
          | .ok (code, resp) =>
            match checkSuccessJ code resp with
            | .error e => ⟨.error (.py e), db, [call]⟩
            | .ok false => ⟨.error (.http ⟨502, "serverError"⟩), db, [call]⟩
            | .ok true =>
              match bindStrParams pathId with
              | .error e => ⟨.error (.py e), db, [call]⟩
              | .ok b2 =>
                  ⟨.ok (), ⟨db.users.filter (fun r => !(r.id == b2)),
                            db.metrics.bumpDeleted⟩, [call]⟩
        else
          match bindStrParams pathId with
          | .error e => ⟨.error (.py e), db, []⟩
          | .ok b2 =>
              ⟨.ok (), ⟨db.users.filter (fun r => !(r.id == b2)),
                        db.metrics.bumpDeleted⟩, []⟩

-- ## Listing (src/app/main.py lines 247-278)

/-- A Python value as passed to a pydantic field: either JSON data or a
builtin function object. -/
inductive PyAny where
  | json (j : Bridge.Json)
  | builtinFun (name : String)

/-- pydantic validation of an `Optional[str]` field against the values
this code can pass: `None` and strings are accepted, a builtin function
object is rejected. -/
def validateOptionalStr : PyAny → Except Bridge.PyErr (Option String)
  | .json .null => .ok none
  | .json (.str s) => .ok (some s)
  | _ => .error .validationError

/-- Assembly of one listed resource (lines 261-269): the source passes
`id=id` although no local variable `id` is in scope in `get_users`, so
the value is the Python BUILTIN function `id`, which fails pydantic
validation of the `Optional[str]` field. -/
def rowToListedUser (row : UserRow) : Except Bridge.PyErr SCIMUser :=
  match validateOptionalStr (.builtinFun "id") with
  | .error e => .error e
  | .ok idv =>
      .ok ⟨idv, row.scimId, row.active != 0, row.userName, row.displayName, row.emails⟩

/-- `get_users` (lines 247-278): clamped offset, total count, the page
SELECT, the per-row resource assembly (aborting at the first raised
validation error, as the Python loop does), and the envelope with
`itemsPerPage = len(resources)`. -/
def get_users (db : DB) (index count : Int) : Except Failure SCIMListResponse :=
  let offset := max (index - 1) 0
  let total : Int := db.users.length
  let rows := sqlSelectPage db.users count offset
  match rows.mapM rowToListedUser with
  | .error e => .error (.py e)
  | .ok resources => .ok ⟨total, resources.length, index, resources⟩

-- ## Concrete fixtures for witnesses and counterexamples

/-- Email entry with value only, no primary flag. -/
def mailA : Bridge.Json := .obj [(.str "value", .str "a@x")]

/-- Email entry a@x flagged primary. -/
def mailATrue : Bridge.Json :=
  .obj [(.str "value", .str "a@x"), (.str "primary", .bool true)]

/-- Email entry a@x with primary explicitly false. -/
def mailAFalse : Bridge.Json :=
  .obj [(.str "value", .str "a@x"), (.str "primary", .bool false)]

/-- Email entry b@x flagged primary. -/
def mailBTrue : Bridge.Json :=
  .obj [(.str "value", .str "b@x"), (.str "primary", .bool true)]

/-- A confirmed structured success body whose msg carries a@x at
index 1. -/
def okBody : Bridge.Json :=
  .arr [.obj [(.str "type", .str "success"),
              (.str "msg", .arr [.str "mailbox added", .str "a@x"])]]

/-- A 200 wire answer with the success body above. -/
def okWire : WireResp := ⟨200, some okBody⟩

/-- A 200 wire answer whose parsed body is a nonempty list whose first
element has no "type" key. -/
def noTypeWire : WireResp := ⟨200, some (.arr [.obj []])⟩

/-- A plain failed wire answer: status 500 with a danger body. -/
def failWire : WireResp := ⟨500, some (.arr [.obj [(.str "type", .str "danger")]])⟩

/-- A wire answer whose body is not valid JSON. -/
def rawWire : WireResp := ⟨200, none⟩

/-- All counters at zero. -/
def metrics0 : Metrics := ⟨0, 0, 0⟩

/-- The empty store. -/
def db0 : DB := ⟨[], metrics0⟩

/-- A stored identity record for alice with mailcowId a@x. -/
def rowU1 : UserRow :=
  ⟨"u1", .str "a@x", some "ext1", 1, "alice", some "Alice", [mailATrue]⟩

/-- A store holding exactly the alice record. -/
def db1 : DB := ⟨[rowU1], metrics0⟩

/-- A create/update request body for alice (no client id, primary mail
a@x). -/
def alice : SCIMUser :=
  ⟨none, some "ext1", true, "alice", some "Alice", [mailATrue]⟩

/-- An update request body moving alice to primary mail b@x. -/
def aliceToB : SCIMUser :=
  ⟨none, some "ext1", true, "alice", some "Alice", [mailBTrue]⟩

/-- A confirmed structured success body for the rename call, msg
carrying b@x at index 1. -/
def okBodyB : Bridge.Json :=
  .arr [.obj [(.str "type", .str "success"),
              (.str "msg", .arr [.str "mailbox renamed", .str "b@x"])]]

/-- A 200 wire answer with the rename success body above. -/
def okWireB : WireResp := ⟨200, some okBodyB⟩

/-- A stored identity record whose internalId has length one (the only
kind the delete path can ever bind, see `bindStrParams`). -/
def rowZ : UserRow :=
  ⟨"z", .str "z@x", some "extz", 1, "zoe", some "Zoe",
   [.obj [(.str "value", .str "z@x"), (.str "primary", .bool true)]]⟩

/-- A store holding exactly the single-character-id record. -/
def dbZ : DB := ⟨[rowZ], metrics0⟩

-- ## Helper lemmas

/-- A successful INSERT appends exactly the given row. -/
theorem insertUser_ok {us : List UserRow} {r : UserRow} {out : List UserRow}
    (h : insertUser us r = .ok out) : out = us ++ [r] := by
  unfold insertUser at h
  split at h
  · cases h
  · injection h with h2
    exact h2.symm

/-- The componentwise counter order is reflexive. -/
theorem Metrics.le_rfl (m : Metrics) : Metrics.le m m :=
  ⟨le_refl _, le_refl _, le_refl _⟩

/-- Bumping the created counter never decreases any counter. -/
theorem Metrics.le_bumpCreated (m : Metrics) : Metrics.le m m.bumpCreated := by
  refine ⟨?_, ?_, ?_⟩ <;> simp [Metrics.bumpCreated]

/-- Bumping the updated counter never decreases any counter. -/
theorem Metrics.le_bumpUpdated (m : Metrics) : Metrics.le m m.bumpUpdated := by
  refine ⟨?_, ?_, ?_⟩ <;> simp [Metrics.bumpUpdated]

/-- Bumping the deleted counter never decreases any counter. -/
theorem Metrics.le_bumpDeleted (m : Metrics) : Metrics.le m m.bumpDeleted := by
  refine ⟨?_, ?_, ?_⟩ <;> simp [Metrics.bumpDeleted]

/-- Exhaustive shape of a create: either it fails and the store is
untouched, or it succeeds, the remote answer passed the success guard,
the created counter was bumped in the same transition, exactly one row
with the fresh id was appended, and the returned resource carries the
fresh id. -/
theorem create_user_shape (db : DB) (u : SCIMUser) (f : String) (w : WireResp) :
    ((create_user db u f w).result.isOk = false ∧ (create_user db u f w).db = db) ∨
    ((create_user db u f w).result.isOk = true ∧
      checkSuccessOpt w.status w.body = .ok true ∧
      (create_user db u f w).db.metrics = db.metrics.bumpCreated ∧
      (∃ r u1, r.id = f ∧ (create_user db u f w).db.users = db.users ++ [r] ∧
        (create_user db u f w).result = .ok u1 ∧ u1.id = some f)) := by
  unfold create_user
  simp only [create_mailbox]
  repeat' split
  all_goals try (left; exact ⟨rfl, rfl⟩)
  rename_i x3 hcs x2 mid hmid x0 users1 hins
  right
  refine ⟨rfl, hcs, rfl,
    ⟨{ id := f, mailcowId := mid, scimId := u.externalId,
       active := if u.active then 1 else 0, userName := u.userName,
       displayName := u.displayName, emails := u.emails },
     { u with id := some f }, rfl, insertUser_ok hins, rfl, rfl⟩⟩

/-- Shape of the final UPDATE-and-commit step of an update: either it
fails leaving the store untouched, or it succeeds, returns the body
unchanged, and bumps the updated counter in the same transition. -/
theorem update_user_commit_shape (db : DB) (u : SCIMUser) (mid : Bridge.Json)
    (calls : List RemoteCall) :
    ((update_user_commit db u mid calls).result.isOk = false ∧
      (update_user_commit db u mid calls).db = db) ∨
    ((update_user_commit db u mid calls).result.isOk = true ∧
      (update_user_commit db u mid calls).result = .ok u ∧
      (update_user_commit db u mid calls).db.metrics = db.metrics.bumpUpdated) := by
  unfold update_user_commit
  split
  · left; exact ⟨rfl, rfl⟩
  · right; exact ⟨rfl, rfl, rfl⟩

/-- Exhaustive shape of an update: either it fails and the store is
untouched, or it succeeds and the updated counter was bumped in the
same transition. -/
theorem update_user_shape (db : DB) (pid : String) (u : SCIMUser)
    (wE wR : WireResp) :
    ((update_user db pid u wE wR).result.isOk = false ∧
      (update_user db pid u wE wR).db = db) ∨
    ((update_user db pid u wE wR).result.isOk = true ∧
      (update_user db pid u wE wR).db.metrics = db.metrics.bumpUpdated) := by
  unfold update_user
  simp only [update_mailbox, rename_mailbox]
  repeat' split
  all_goals try (left; exact ⟨rfl, rfl⟩)
  all_goals
    rcases update_user_commit_shape db u _ _ with ⟨h1, h2⟩ | ⟨h1, _, h3⟩
    · exact Or.inl ⟨h1, h2⟩
    · exact Or.inr ⟨h1, h3⟩

/-- A Python string split never yields the empty list of pieces. -/
theorem splitChars_ne_nil (sep : Char) (cs acc : List Char) :
    splitChars sep cs acc ≠ [] := by
  induction cs generalizing acc with
  | nil => simp [splitChars]
  | cons c cs2 ih =>
      simp only [splitChars]
      split
      · simp
      · exact ih _

/-- Exhaustive shape of a delete: either it fails and the store is
untouched, or it succeeds and the deleted counter was bumped in the
same transition. -/
theorem delete_user_shape (ad dr : Bool) (db : DB) (pid : String)
    (w : WireResp) :
    ((delete_user ad dr db pid w).result.isOk = false ∧
      (delete_user ad dr db pid w).db = db) ∨
    ((delete_user ad dr db pid w).result.isOk = true ∧
      (delete_user ad dr db pid w).db.metrics = db.metrics.bumpDeleted) := by
  unfold delete_user
  repeat' split
  all_goals try (left; exact ⟨rfl, rfl⟩)
  all_goals right; exact ⟨rfl, rfl⟩

-- ## Claim theorems

/-- C1.  Primary-address resolution at the failing input: for the
non-empty list with a single entry holding only a value and no primary
flag, the code does NOT return that value — the `mail[0]` at line 164
(a typo for `mails[0]`) subscripts the last entry dict with the integer
key 0 and raises KeyError.  The alongside conjuncts confirm the parts
of the claim that do hold: the empty list fails resolution (None), and
an entry flagged primary is returned. -/
theorem c1_get_primary_mail_keyerror :
    get_primary_mail [mailA] = .error .keyError ∧
    get_primary_mail [] = .ok .null ∧
    get_primary_mail [mailAFalse, mailBTrue] = .ok (.str "b@x") :=
  ⟨rfl, rfl, rfl⟩

/-- C2.  Update with both remote calls succeeding: the stored record
under the path id u1 is NOT replaced, because the final UPDATE is keyed
on the BODY id (line 384 passes `user.id`, here absent, and `id = NULL`
matches no row); yet the updated counter is bumped and the operation
reports success, returning the body with its absent id. -/
theorem c2_update_keyed_on_body_id :
    (update_user db1 "u1" aliceToB okWire okWireB).result = .ok aliceToB ∧
    aliceToB.id = none ∧
    (update_user db1 "u1" aliceToB okWire okWireB).db.users = [rowU1] ∧
    rowU1.mailcowId = .str "a@x" ∧
    (update_user db1 "u1" aliceToB okWire okWireB).db.metrics = ⟨0, 1, 0⟩ :=
  ⟨rfl, rfl, rfl, rfl, rfl⟩

/-- C3.  Delete of an absent id: for the two-character id "ab" the
lookup SELECT receives the id as a bare string (line 290, `(id)`
instead of `(id,)`), so sqlite raises ProgrammingError (an HTTP 500)
BEFORE the existence check ever runs — not the claimed 404 notFound.
The second conjunct shows the claimed behaviour survives only for the
accidental case of a single-character id. -/
theorem c3_delete_programming_error :
    delete_user true false db0 "ab" okWire =
      ⟨.error (.py .programmingError), db0, []⟩ ∧
    delete_user true false db0 "z" okWire =
      ⟨.error (.http ⟨404, "notFound"⟩), db0, []⟩ :=
  ⟨rfl, rfl⟩

/-- C4.  Listing with at least one stored record: each resource is
assembled with `id=id` (line 263) where no local variable id exists, so
the Python builtin function id reaches the pydantic Optional-str field
and validation raises — no envelope is produced at all, let alone one
whose resources carry their stored internalIds.  Listing an empty store
still works and returns totalResults 0. -/
theorem c4_get_users_validation_error :
    get_users db1 1 100 = .error (.py .validationError) ∧
    rowToListedUser rowU1 = .error .validationError ∧
    get_users db0 1 100 = .ok ⟨0, 0, 1, []⟩ ∧
    get_users db0 0 100 = .ok ⟨0, 0, 0, []⟩ :=
  ⟨rfl, rfl, rfl, rfl⟩

/-- C5 counterexample.  The edit operation does not return a
status/absent-body pair on an unparseable response: `update_mailbox`
has no try/except around `resp.json()` (line 453), so it raises the
decode error instead of returning. -/
theorem c5_update_mailbox_raises :
    update_mailbox (.str "a@x") (some true) (some "Alice") none ⟨200, none⟩ =
      .error .valueError ∧
    ¬ ∃ p, update_mailbox (.str "a@x") (some true) (some "Alice") none ⟨200, none⟩ =
      .ok p := by
  refine ⟨rfl, ?_⟩
  rintro ⟨p, hp⟩
  rw [show update_mailbox (.str "a@x") (some true) (some "Alice") none ⟨200, none⟩ =
        .error .valueError from rfl] at hp
  cases hp

/-- C5 amended.  Only create and lookup return `(status, body-or-
absent)` for every response; edit, rename and delete return the pair
exactly when the body parses and raise the JSON decode error when it
does not. -/
theorem c5_mailbox_client_contract (w : WireResp) (lp dom s : String)
    (name : Option String) (idj : Bridge.Json) (act : Option Bool)
    (tags : Option (List Bridge.Json)) :
    create_mailbox lp dom name w = (w.status, w.body) ∧
    get_mailbox s w = (w.status, w.body) ∧
    update_mailbox idj act name tags w =
      (match w.body with
       | some j => .ok (w.status, j)
       | none => .error .valueError) ∧
    delete_mailbox idj w =
      (match w.body with
       | some j => .ok (w.status, j)
       | none => .error .valueError) ∧
    rename_mailbox (.str s) lp dom w =
      (match w.body with
       | some j => .ok (w.status, j)
       | none => .error .valueError) :=
  ⟨rfl, rfl, rfl, rfl, rfl⟩

/-- C6 counterexample.  A remote create failure that is a 200 answer
whose first body element lacks a "type" key: the success guard itself
raises KeyError, so the operation fails with an uncaught exception
(HTTP 500), not with the claimed UpstreamError 502 — though still with
no local write. -/
theorem c6_create_keyerror_not_upstream :
    (create_user db0 alice "u1" noTypeWire).result = .error (.py .keyError) ∧
    ¬ (create_user db0 alice "u1" noTypeWire).result =
        .error (.http ⟨502, "serverError"⟩) ∧
    (create_user db0 alice "u1" noTypeWire).db = db0 := by
  refine ⟨rfl, ?_, rfl⟩
  intro h
  rw [show (create_user db0 alice "u1" noTypeWire).result =
        .error (.py .keyError) from rfl] at h
  exact Failure.noConfusion (Except.error.inj h)

/-- C6 amended.  For every creation request whose remote create answer
does not pass the success guard, the operation fails (never succeeds)
and writes nothing locally — record and counters untouched; and on the
reachable remote-failure paths the failure is the 502 UpstreamError
when the guard evaluates to false, or the guard evaluation exception
itself (e.g. KeyError for a 200 body whose first element has no type
key). -/
theorem c6_create_remote_failure_no_write (db : DB) (u : SCIMUser)
    (f : String) (w : WireResp)
    (hfail : checkSuccessOpt w.status w.body ≠ .ok true) :
    (create_user db u f w).result.isOk = false ∧
    (create_user db u f w).db = db ∧
    (∀ s lp dom rest,
      get_primary_mail u.emails = .ok (.str s) →
      existsConflict db.users u.externalId u.userName = false →
      pySplitAtSign (.str s) = .ok (lp :: dom :: rest) →
      (create_user db u f w).result =
        (match checkSuccessOpt w.status w.body with
         | .error e => .error (.py e)
         | .ok _ => .error (.http ⟨502, "serverError"⟩))) := by
  have hshape := create_user_shape db u f w
  rcases hshape with ⟨h1, h2⟩ | ⟨h1, hcs, h3⟩
  · refine ⟨h1, h2, ?_⟩
    intro s lp dom rest hres hconf hsplit
    unfold create_user
    simp only [create_mailbox, hres, hconf, hsplit]
    simp only [isNone, Bool.false_eq_true, if_false, List.head?]
    cases hcs : checkSuccessOpt w.status w.body with
    | error e => simp
    | ok b =>
        cases b with
        | true => exact absurd hcs hfail
        | false => simp
  · exact absurd hcs hfail

/-- C8 counterexample.  A creation request with a conflicting userName
but an empty email list fails with 400 invalidSyntax, not with the
claimed ConflictError: the email resolution check precedes the
uniqueness check. -/
theorem c8_conflict_not_first :
    existsConflict db1.users (some "ext1") "alice" = true ∧
    create_user db1 { alice with emails := [] } "u2" okWire =
      ⟨.error (.http ⟨400, "invalidSyntax"⟩), db1, []⟩ ∧
    ¬ (create_user db1 { alice with emails := [] } "u2" okWire).result =
        .error (.http ⟨409, "uniqueness"⟩) := by
  refine ⟨rfl, rfl, ?_⟩
  intro h
  rw [show (create_user db1 { alice with emails := [] } "u2" okWire).result =
        .error (.http ⟨400, "invalidSyntax"⟩) from rfl] at h
  exact absurd (Failure.http.inj (Except.error.inj h))
    (by intro hx; cases hx)

/-- C8 amended.  For every creation request whose primary-address
resolution yields a non-None address, a store conflict on externalId or
userName makes the operation fail with the 409 uniqueness error, with
no mailbox-client call made and the store untouched. -/
theorem c8_conflict_before_remote (db : DB) (u : SCIMUser) (f : String)
    (w : WireResp) (email : Bridge.Json)
    (hres : get_primary_mail u.emails = .ok email)
    (hnn : isNone email = false)
    (hconf : existsConflict db.users u.externalId u.userName = true) :
    create_user db u f w = ⟨.error (.http ⟨409, "uniqueness"⟩), db, []⟩ := by
  unfold create_user
  simp only [hres, hnn, hconf, Bool.false_eq_true, if_false, if_true]

/-- If the rename call chain produced a status/body pair, the body was
parseable and the pair is the wire status with the parsed body; hence a
rename answer that never passes the guard contradicts a guard success
on that pair. -/
theorem renameChain_contra {mid0 : Bridge.Json} {wR : WireResp} {code2 : Int}
    {resp2 : Bridge.Json}
    (hrn : ∀ jR, wR.body = some jR → checkSuccessJ wR.status jR ≠ .ok true)
    (h : (match pySplitAtSign mid0 with
          | .error e => Except.error e
          | .ok _ =>
            match wR.body with
            | some j => Except.ok (wR.status, j)
            | none => Except.error PyErr.valueError) =
        Except.ok (code2, resp2))
    (hcs : checkSuccessJ code2 resp2 = .ok true) : False := by
  split at h
  · cases h
  · split at h
    · rename_i j hb
      injection h with h2
      injection h2 with hc hj
      subst hj
      exact hrn _ hb (by rw [hc]; exact hcs)
    · cases h

/-- C7 counterexample.  Rename leg answered 200 with a first body
element lacking a "type" key: the guard raises KeyError, so the
operation reports an uncaught exception (HTTP 500), not the claimed
UpstreamError 502 — though the record and the counter are indeed
untouched. -/
theorem c7_rename_keyerror_not_upstream :
    (update_user db1 "u1" aliceToB okWire noTypeWire).result =
      .error (.py .keyError) ∧
    ¬ (update_user db1 "u1" aliceToB okWire noTypeWire).result =
        .error (.http ⟨502, "serverError"⟩) ∧
    (update_user db1 "u1" aliceToB okWire noTypeWire).db = db1 := by
  refine ⟨rfl, ?_, rfl⟩
  intro h
  rw [show (update_user db1 "u1" aliceToB okWire noTypeWire).result =
        .error (.py .keyError) from rfl] at h
  exact Failure.noConfusion (Except.error.inj h)

/-- C7 amended.  Update where the record is found, the resolved address
is not Python-equal to the stored mailcowId, and the rename answer does
not pass the success guard: the operation fails (never succeeds) and
the local record and every counter are untouched; on the reachable
remote-failure paths the failure is the 502 UpstreamError when the
guard evaluates to false, or the guard evaluation exception itself. -/
theorem c7_rename_failure_frame (db : DB) (pid : String) (u : SCIMUser)
    (wE wR : WireResp) (row : UserRow) (email : Bridge.Json)
    (hres : get_primary_mail u.emails = .ok email)
    (hfind : db.users.find? (fun r => r.id == pid) = some row)
    (hne : pyEq email row.mailcowId = false)
    (hrn : ∀ jR, wR.body = some jR → checkSuccessJ wR.status jR ≠ .ok true) :
    (update_user db pid u wE wR).result.isOk = false ∧
    (update_user db pid u wE wR).db = db ∧
    (∀ s lp dom rest jE jR m,
      email = .str s →
      pySplitAtSign (.str s) = .ok (lp :: dom :: rest) →
      wE.body = some jE →
      checkSuccessJ wE.status jE = .ok true →
      row.mailcowId = .str m →
      wR.body = some jR →
      (update_user db pid u wE wR).result =
        (match checkSuccessJ wR.status jR with
         | .error e => .error (.py e)
         | .ok _ => .error (.http ⟨502, "serverError"⟩))) := by
  have hmain : (update_user db pid u wE wR).result.isOk = false ∧
      (update_user db pid u wE wR).db = db := by
    unfold update_user
    simp only [hres, hfind, update_mailbox, rename_mailbox, hne,
      Bool.false_eq_true, if_false]
    repeat' split
    all_goals first
      | exact ⟨rfl, rfl⟩
      | exact (renameChain_contra hrn (by assumption) (by assumption)).elim
  refine ⟨hmain.1, hmain.2, ?_⟩
  intro s lp dom rest jE jR m hse hsplit hEb hEcs hm hRb
  subst hse
  have hne2 : pyEq (.str s) (.str m) = false := hm ▸ hne
  obtain ⟨p0, ptail, hsm⟩ :
      ∃ p0 ptail, pySplitAtSign (.str m) = .ok (p0 :: ptail) := by
    cases hsc : splitChars '@' m.data [] with
    | nil => exact absurd hsc (splitChars_ne_nil _ _ _)
    | cons a l =>
        exact ⟨String.mk a, l.map (fun x => String.mk x),
          by simp [pySplitAtSign, hsc]⟩
  unfold update_user
  simp only [hres, hfind, update_mailbox, rename_mailbox, hEb, hEcs,
    hsplit, hm, hne2, Bool.false_eq_true, if_false, hsm, hRb,
    isNone, List.head?]
  cases hcs2 : checkSuccessJ wR.status jR with
  | error e => simp
  | ok b =>
      cases b with
      | true => exact absurd hcs2 (hrn jR hRb)
      | false => simp

/-- C9.  Counter invariant over the three mutating operations (the
read operations take no store to a new state at all, by their types):
no operation ever decreases any counter; a successful operation bumps
exactly its own counter by one in the same state transition that
commits its store mutation, and a failed operation leaves every counter
unchanged. -/
theorem c9_counters_monotone_exact (db : DB) (u : SCIMUser) (f pid : String)
    (w wE wR wD : WireResp) (ad dr : Bool) :
    (Metrics.le db.metrics (create_user db u f w).db.metrics ∧
      ((create_user db u f w).result.isOk = true →
        (create_user db u f w).db.metrics = db.metrics.bumpCreated) ∧
      ((create_user db u f w).result.isOk = false →
        (create_user db u f w).db.metrics = db.metrics)) ∧
    (Metrics.le db.metrics (update_user db pid u wE wR).db.metrics ∧
      ((update_user db pid u wE wR).result.isOk = true →
        (update_user db pid u wE wR).db.metrics = db.metrics.bumpUpdated) ∧
      ((update_user db pid u wE wR).result.isOk = false →
        (update_user db pid u wE wR).db.metrics = db.metrics)) ∧
    (Metrics.le db.metrics (delete_user ad dr db pid wD).db.metrics ∧
      ((delete_user ad dr db pid wD).result.isOk = true →
        (delete_user ad dr db pid wD).db.metrics = db.metrics.bumpDeleted) ∧
      ((delete_user ad dr db pid wD).result.isOk = false →
        (delete_user ad dr db pid wD).db.metrics = db.metrics)) := by
  refine ⟨?_, ?_, ?_⟩
  · rcases create_user_shape db u f w with ⟨h1, h2⟩ | ⟨h1, _, h3, _⟩
    · exact ⟨by rw [h2]; exact Metrics.le_rfl db.metrics,
        fun hk => absurd hk (by rw [h1]; exact Bool.false_ne_true),
        fun _ => by rw [h2]⟩
    · exact ⟨by rw [h3]; exact Metrics.le_bumpCreated db.metrics,
        fun _ => h3,
        fun hk => absurd h1 (by rw [hk]; exact Bool.false_ne_true)⟩
  · rcases update_user_shape db pid u wE wR with ⟨h1, h2⟩ | ⟨h1, h3⟩
    · exact ⟨by rw [h2]; exact Metrics.le_rfl db.metrics,
        fun hk => absurd hk (by rw [h1]; exact Bool.false_ne_true),
        fun _ => by rw [h2]⟩
    · exact ⟨by rw [h3]; exact Metrics.le_bumpUpdated db.metrics,
        fun _ => h3,
        fun hk => absurd h1 (by rw [hk]; exact Bool.false_ne_true)⟩
  · rcases delete_user_shape ad dr db pid wD with ⟨h1, h2⟩ | ⟨h1, h3⟩
    · exact ⟨by rw [h2]; exact Metrics.le_rfl db.metrics,
        fun hk => absurd hk (by rw [h1]; exact Bool.false_ne_true),
        fun _ => by rw [h2]⟩
    · exact ⟨by rw [h3]; exact Metrics.le_bumpDeleted db.metrics,
        fun _ => h3,
        fun hk => absurd h1 (by rw [hk]; exact Bool.false_ne_true)⟩

/-- C10.  The internalId of a created resource is the server-generated
fresh identifier: the outcome of a create is entirely independent of
any client-supplied id (the line 189 assignment overwrites it before
any use), the returned resource carries the fresh id, and the single
appended row is keyed by the fresh id. -/
theorem c10_create_id_server_generated (db : DB) (u : SCIMUser)
    (cid : Option String) (f : String) (w : WireResp) :
    create_user db { u with id := cid } f w = create_user db u f w ∧
    (∀ u1, (create_user db u f w).result = .ok u1 → u1.id = some f) ∧
    ((create_user db u f w).result.isOk = true →
      ∃ r, r.id = f ∧ (create_user db u f w).db.users = db.users ++ [r]) := by
  refine ⟨rfl, ?_, ?_⟩
  · intro u1 hu1
    rcases create_user_shape db u f w with ⟨h1, _⟩ | ⟨_, _, _, r, u2, _, _, hres, hid⟩
    · rw [hu1] at h1; cases h1
    · rw [hu1] at hres
      injection hres with h2
      rw [← h2] at hid
      exact hid
  · intro hk
    rcases create_user_shape db u f w with ⟨h1, _⟩ | ⟨_, _, _, r, u2, hrid, husers, _, _⟩
    · rw [hk] at h1; cases h1
    · exact ⟨r, hrid, husers⟩

/-- C6 witness: a plain 500 answer to the create call is a remote
failure; the amended theorem evaluated there gives the 502 upstream
error with the store untouched. -/
theorem c6_witness :
    (create_user db0 alice "u1" failWire).result.isOk = false ∧
    (create_user db0 alice "u1" failWire).db = db0 ∧
    (create_user db0 alice "u1" failWire).result =
      .error (.http ⟨502, "serverError"⟩) := by
  have hf : checkSuccessOpt failWire.status failWire.body ≠ .ok true := by
    intro h
    exact Bool.noConfusion (Except.ok.inj h)
  exact ⟨(c6_create_remote_failure_no_write db0 alice "u1" failWire hf).1,
    (c6_create_remote_failure_no_write db0 alice "u1" failWire hf).2.1,
    (c6_create_remote_failure_no_write db0 alice "u1" failWire hf).2.2
      "a@x" "a" "x" [] rfl rfl rfl⟩

/-- C7 witness: record found, address changed, edit confirmed, rename
answered with a plain 500 failure; the amended theorem evaluated there
gives the 502 upstream error with record and counters untouched. -/
theorem c7_witness :
    (update_user db1 "u1" aliceToB okWire failWire).result.isOk = false ∧
    (update_user db1 "u1" aliceToB okWire failWire).db = db1 ∧
    (update_user db1 "u1" aliceToB okWire failWire).result =
      .error (.http ⟨502, "serverError"⟩) := by
  have hrn : ∀ jR, failWire.body = some jR →
      checkSuccessJ failWire.status jR ≠ .ok true := by
    intro jR hb h
    injection hb with h2
    subst h2
    exact Bool.noConfusion (Except.ok.inj h)
  exact ⟨(c7_rename_failure_frame db1 "u1" aliceToB okWire failWire rowU1
      (.str "b@x") rfl rfl rfl hrn).1,
    (c7_rename_failure_frame db1 "u1" aliceToB okWire failWire rowU1
      (.str "b@x") rfl rfl rfl hrn).2.1,
    (c7_rename_failure_frame db1 "u1" aliceToB okWire failWire rowU1
      (.str "b@x") rfl rfl rfl hrn).2.2 "b@x" "b" "x" [] okBody
      (.arr [.obj [(.str "type", .str "danger")]]) "a@x"
      rfl rfl rfl rfl rfl rfl⟩

/-- C8 witness: a request conflicting on both externalId and userName,
with a resolvable primary address: the amended theorem evaluated there
gives the 409 uniqueness error with no remote call and no local
write. -/
theorem c8_witness :
    create_user db1 alice "u2" okWire =
      ⟨.error (.http ⟨409, "uniqueness"⟩), db1, []⟩ :=
  c8_conflict_before_remote db1 alice "u2" okWire (.str "a@x") rfl rfl rfl

/-- C9 witness: the exactness clauses of the counters theorem evaluated
on a successful create, a successful update, a successful delete and a
failed (conflicting) create. -/
theorem c9_witness :
    (create_user db0 alice "u1" okWire).db.metrics = db0.metrics.bumpCreated ∧
    (update_user db1 "u1" aliceToB okWire okWireB).db.metrics =
      db1.metrics.bumpUpdated ∧
    (delete_user true false dbZ "z" okWire).db.metrics =
      dbZ.metrics.bumpDeleted ∧
    (create_user db1 alice "u1" okWire).db.metrics = db1.metrics :=
  ⟨(c9_counters_monotone_exact db0 alice "u1" "z" okWire okWire okWireB okWire
      true false).1.2.1 rfl,
   (c9_counters_monotone_exact db1 aliceToB "u1" "u1" okWire okWire okWireB
      okWire true false).2.1.2.1 rfl,
   (c9_counters_monotone_exact dbZ alice "u1" "z" okWire okWire okWireB okWire
      true false).2.2.2.1 rfl,
   (c9_counters_monotone_exact db1 alice "u1" "z" okWire okWire okWireB okWire
      true false).1.2.2 rfl⟩

/-- C10 witness: a client-supplied id changes nothing about the outcome
of a successful create; the returned resource and the stored row carry
the fresh server-side id. -/
theorem c10_witness :
    create_user db0 { alice with id := some "cid0" } "u1" okWire =
      create_user db0 alice "u1" okWire ∧
    ({ alice with id := some "u1" } : SCIMUser).id = some "u1" ∧
    (∃ r, r.id = "u1" ∧
      (create_user db0 alice "u1" okWire).db.users = db0.users ++ [r]) :=
  ⟨(c10_create_id_server_generated db0 alice (some "cid0") "u1" okWire).1,
   (c10_create_id_server_generated db0 alice (some "cid0") "u1" okWire).2.1
     { alice with id := some "u1" } rfl,
   (c10_create_id_server_generated db0 alice (some "cid0") "u1" okWire).2.2 rfl⟩

end Bridge

